import Mathlib

/-!
Verification of the mit-chatbot investigation loop.

This file gives a shallow embedding of the core of the repository
(`app/core`): the JSON-like values flowing through the graph, the grader
heuristic (`app/core/nodes/grader.py`), the analyzer decision logic
(`app/core/nodes/analyzer.py`), the rewriter (`app/core/nodes/rewriter.py`),
the responder prompt selection (`app/core/nodes/responder.py`), the routing
edges (`app/core/edges.py`), and the orchestrator loop wired in
`app/core/graph.py`, together with theorems about them.
-/

namespace MitChatbot

/-- JSON-like values, the data interchanged between nodes.  Numbers are
modelled as integers (the inputs relevant here are integral). -/
inductive Value where
  | null : Value
  | bool (b : Bool) : Value
  | num (n : Int) : Value
  | str (s : String) : Value
  | arr (elems : List Value) : Value
  | obj (fields : List (String × Value)) : Value

mutual

/-- Decidable equality on values, by mutual structural recursion. -/
def Value.decEq : (a b : Value) → Decidable (a = b)
  | .null, .null => isTrue rfl
  | .bool a, .bool b =>
      if h : a = b then isTrue (by rw [h])
      else isFalse (by intro hh; injection hh; contradiction)
  | .num a, .num b =>
      if h : a = b then isTrue (by rw [h])
      else isFalse (by intro hh; injection hh; contradiction)
  | .str a, .str b =>
      if h : a = b then isTrue (by rw [h])
      else isFalse (by intro hh; injection hh; contradiction)
  | .arr a, .arr b =>
      match decEqL a b with
      | isTrue h => isTrue (by rw [h])
      | isFalse h => isFalse (by intro hh; injection hh; contradiction)
  | .obj a, .obj b =>
      match decEqF a b with
      | isTrue h => isTrue (by rw [h])
      | isFalse h => isFalse (by intro hh; injection hh; contradiction)
  | .null, .bool _ => isFalse (by intro hh; exact Value.noConfusion hh)
  | .null, .num _ => isFalse (by intro hh; exact Value.noConfusion hh)
  | .null, .str _ => isFalse (by intro hh; exact Value.noConfusion hh)
  | .null, .arr _ => isFalse (by intro hh; exact Value.noConfusion hh)
  | .null, .obj _ => isFalse (by intro hh; exact Value.noConfusion hh)
  | .bool _, .null => isFalse (by intro hh; exact Value.noConfusion hh)
  | .bool _, .num _ => isFalse (by intro hh; exact Value.noConfusion hh)
  | .bool _, .str _ => isFalse (by intro hh; exact Value.noConfusion hh)
  | .bool _, .arr _ => isFalse (by intro hh; exact Value.noConfusion hh)
  | .bool _, .obj _ => isFalse (by intro hh; exact Value.noConfusion hh)
  | .num _, .null => isFalse (by intro hh; exact Value.noConfusion hh)
  | .num _, .bool _ => isFalse (by intro hh; exact Value.noConfusion hh)
  | .num _, .str _ => isFalse (by intro hh; exact Value.noConfusion hh)
  | .num _, .arr _ => isFalse (by intro hh; exact Value.noConfusion hh)
  | .num _, .obj _ => isFalse (by intro hh; exact Value.noConfusion hh)
  | .str _, .null => isFalse (by intro hh; exact Value.noConfusion hh)
  | .str _, .bool _ => isFalse (by intro hh; exact Value.noConfusion hh)
  | .str _, .num _ => isFalse (by intro hh; exact Value.noConfusion hh)
  | .str _, .arr _ => isFalse (by intro hh; exact Value.noConfusion hh)
  | .str _, .obj _ => isFalse (by intro hh; exact Value.noConfusion hh)
  | .arr _, .null => isFalse (by intro hh; exact Value.noConfusion hh)
  | .arr _, .bool _ => isFalse (by intro hh; exact Value.noConfusion hh)
  | .arr _, .num _ => isFalse (by intro hh; exact Value.noConfusion hh)
  | .arr _, .str _ => isFalse (by intro hh; exact Value.noConfusion hh)
  | .arr _, .obj _ => isFalse (by intro hh; exact Value.noConfusion hh)
  | .obj _, .null => isFalse (by intro hh; exact Value.noConfusion hh)
  | .obj _, .bool _ => isFalse (by intro hh; exact Value.noConfusion hh)
  | .obj _, .num _ => isFalse (by intro hh; exact Value.noConfusion hh)
  | .obj _, .str _ => isFalse (by intro hh; exact Value.noConfusion hh)
  | .obj _, .arr _ => isFalse (by intro hh; exact Value.noConfusion hh)

/-- Decidable equality on value lists. -/
def decEqL : (a b : List Value) → Decidable (a = b)
  | [], [] => isTrue rfl
  | [], _ :: _ => isFalse (by intro hh; exact List.noConfusion hh)
  | _ :: _, [] => isFalse (by intro hh; exact List.noConfusion hh)
  | a :: as, b :: bs =>
      match Value.decEq a b, decEqL as bs with
      | isTrue h1, isTrue h2 => isTrue (by rw [h1, h2])
      | isFalse h1, _ => isFalse (by intro hh; injection hh; contradiction)
      | _, isFalse h2 => isFalse (by intro hh; injection hh; contradiction)

/-- Decidable equality on field lists. -/
def decEqF : (a b : List (String × Value)) → Decidable (a = b)
  | [], [] => isTrue rfl
  | [], _ :: _ => isFalse (by intro hh; exact List.noConfusion hh)
  | _ :: _, [] => isFalse (by intro hh; exact List.noConfusion hh)
  | (k, a) :: as, (k2, b) :: bs =>
      if hk : k = k2 then
        match Value.decEq a b, decEqF as bs with
        | isTrue h1, isTrue h2 => isTrue (by rw [hk, h1, h2])
        | isFalse h1, _ =>
            isFalse (by intro hh; injection hh with hp ht; injection hp; contradiction)
        | _, isFalse h2 => isFalse (by intro hh; injection hh with hp ht; contradiction)
      else isFalse (by intro hh; injection hh with hp ht; injection hp; contradiction)

end

instance : DecidableEq Value := Value.decEq

/-- A tool-result record (a Python dict), e.g. one element of `tool_results`. -/
abbrev Item := List (String × Value)

/-- Python `d.get(k, dflt)` on an object's field list. -/
def dictGet (fields : List (String × Value)) (k : String) (dflt : Value) : Value :=
  (fields.lookup k).getD dflt

/-- Python truthiness of a JSON value (`if item.get("error"):`). -/
def truthy : Value → Bool
  | .null => false
  | .bool b => b
  | .num n => n != 0
  | .str s => s != ""
  | .arr l => !l.isEmpty
  | .obj l => !l.isEmpty

/-- ASCII lower-casing of a character (model of Python `str.lower` on the
ASCII inputs relevant here). -/
def asciiLower (c : Char) : Char :=
  if 'A' ≤ c && c ≤ 'Z' then Char.ofNat (c.toNat + 32) else c

/-- Lower-case a string character-wise. -/
def strLower (s : String) : String :=
  ⟨s.data.map asciiLower⟩

/-- Does the character list start with the given pattern? -/
def listStartsWith : List Char → List Char → Bool
  | [], _ => true
  | _ :: _, [] => false
  | p :: ps, c :: cs => p == c && listStartsWith ps cs

/-- Does the character list contain the pattern as a contiguous run?
Model of Python `pat in s`. -/
def listHasSub (pat : List Char) : List Char → Bool
  | [] => pat.isEmpty
  | c :: cs => listStartsWith pat (c :: cs) || listHasSub pat cs

/-- Python `pat in s` on strings. -/
def strContainsSub (s pat : String) : Bool :=
  listHasSub pat.data s.data

/-- Characters removed by Python `str.strip()` with no argument: exactly
the characters on which `str.isspace()` holds — the ASCII whitespace and
separator controls U+0009–U+000D and U+001C–U+0020, the next line U+0085,
the no-break space U+00A0, and the Unicode space and line/paragraph
separators U+1680, U+2000–U+200A, U+2028, U+2029, U+202F, U+205F and
U+3000. -/
def isPyWs (c : Char) : Bool :=
  ('\x09' ≤ c && c ≤ '\x0d') || ('\x1c' ≤ c && c ≤ '\x20')
    || c = '\u0085' || c = '\u00a0' || c = '\u1680'
    || ('\u2000' ≤ c && c ≤ '\u200a')
    || c = '\u2028' || c = '\u2029' || c = '\u202f' || c = '\u205f'
    || c = '\u3000'

/-- Remove the characters satisfying `p` from both ends of a string: the
common core of Python `str.strip()` and `str.strip(chars)`. -/
def stripWhile (p : Char → Bool) (s : String) : String :=
  ⟨((s.data.dropWhile p).reverse.dropWhile p).reverse⟩

/-- Python `s.strip()`. -/
def pyStripWs (s : String) : String := stripWhile isPyWs s

/-! Serialization: model of Python `json.dumps` with its default separators
(`", "` and `": "`), used by the grader for substring matching, and of
Python `str` on scalars. -/

/-- Escape a string body as `json.dumps` does for the characters relevant
here (backslash and double quote). -/
def jsonEscape (s : String) : String :=
  String.join (s.data.map fun c =>
    if c = '\\' then "\\\\" else if c = '"' then "\\\"" else String.singleton c)

mutual

/-- Model of Python `json.dumps(v)` with default separators. -/
def pyJsonDumps : Value → String
  | .null => "null"
  | .bool true => "true"
  | .bool false => "false"
  | .num n => toString n
  | .str s => "\"" ++ jsonEscape s ++ "\""
  | .arr l => "[" ++ dumpsElems l ++ "]"
  | .obj l => "\x7b" ++ dumpsFields l ++ "\x7d"

/-- Comma-separated serialization of array elements. -/
def dumpsElems : List Value → String
  | [] => ""
  | [v] => pyJsonDumps v
  | v :: rest => pyJsonDumps v ++ ", " ++ dumpsElems rest

/-- Comma-separated serialization of object fields. -/
def dumpsFields : List (String × Value) → String
  | [] => ""
  | [(k, v)] => "\"" ++ jsonEscape k ++ "\": " ++ pyJsonDumps v
  | (k, v) :: rest =>
      "\"" ++ jsonEscape k ++ "\": " ++ pyJsonDumps v ++ ", " ++ dumpsFields rest

end

/-- Model of Python `str(v)` on a decoded JSON value (the grader applies it
to scalars only; containers go through `json.dumps`). -/
def pyStr : Value → String
  | .null => "None"
  | .bool true => "True"
  | .bool false => "False"
  | .num n => toString n
  | .str s => s
  | .arr l => pyJsonDumps (.arr l)
  | .obj l => pyJsonDumps (.obj l)

/-! Grader node, from `app/core/nodes/grader.py`. -/

/-- The heuristic patterns of `BAD_RESULT_PATTERNS` in
`app/core/nodes/grader.py` that indicate poor or empty results. -/
def BAD_RESULT_PATTERNS : List String :=
  ["0 results", "count: 0", "count\":0", "count\": 0",
   "no data found", "No data found", "no results found", "No results found"]

/-- Embedding of `_extract_actual_data` (grader.py lines 30-44): unwrap a
nested `"result"` or `"data"` key from a potentially enveloped API
response. -/
def extract_actual_data : Value → Value
  | .obj fields =>
      match fields.lookup "result" with
      | some v => v
      | none =>
          match fields.lookup "data" with
          | some v => v
          | none => .obj fields
  | v => v

/-- The keys discarded as metadata by `_has_meaningful_data`. -/
def metadataKeys : List String := ["meta", "metadata", "pagination", "success"]

/-- Embedding of `_has_meaningful_data` (grader.py lines 47-79): check that
a value carries meaningful content. -/
def has_meaningful_data : Value → Bool
  | .null => false
  | .arr l => !l.isEmpty
  | .obj fields =>
      let dataKeys := (fields.map Prod.fst).filter fun k => !(metadataKeys.contains k)
      if dataKeys.isEmpty then false
      else dataKeys.any fun k =>
        match fields.lookup k with
        | none => false
        | some v => v ≠ .null && v ≠ .arr [] && v ≠ .obj [] && v ≠ .str ""
  | .str s => !(pyStripWs s).isEmpty
  | .bool _ => true
  | .num _ => true

/-- The tail of `_check_single_result` after envelope extraction (grader.py
lines 106-123): accept a non-empty list immediately, otherwise serialize,
reject on a bad pattern, and fall back to the structural test. -/
def judge_actual (actual : Value) : Bool :=
  match actual with
  | .arr (_ :: _) => true
  | _ =>
      let resultStr :=
        match actual with
        | .obj _ => pyJsonDumps actual
        | .arr _ => pyJsonDumps actual
        | _ => pyStr actual
      if BAD_RESULT_PATTERNS.any
          (fun p => strContainsSub (strLower resultStr) (strLower p)) then false
      else has_meaningful_data actual

/-- Embedding of `_check_single_result` (grader.py lines 82-123): judge
whether a single tool-result record carries valid data. -/
def check_single_result (item : Item) : Bool :=
  if truthy (dictGet item "error" .null) then false
  else
    let raw := dictGet item "result" (.obj [])
    let explicitFailure :=
      match raw with
      | .obj fields => decide (fields.lookup "success" = some (Value.bool false))
      | _ => false
    if explicitFailure then false
    else judge_actual (extract_actual_data raw)

/-- Embedding of `_check_result_quality` (grader.py lines 126-148): the
pure grading predicate, good exactly when some single result is judged
meaningful. -/
def check_result_quality (tool_results : List Item) : Bool :=
  if tool_results.isEmpty then false
  else tool_results.any check_single_result

/-- Embedding of the pure part of `grader_node` (grader.py lines 151-181):
the produced `data_quality` string, with the retry-exhaustion valve. -/
def grader_node_quality (retry_count : Nat) (tool_results : List Item) : String :=
  if 3 ≤ retry_count then "good"
  else if check_result_quality tool_results then "good" else "bad"

/-! Grader envelope helpers, for the envelope-nesting property. -/

/-- The one-level envelope shape `{"success": true, "result": X}` produced
by the Manifest API (grader.py lines 30-36). -/
def envelope (x : Value) : Value :=
  .obj [("success", .bool true), ("result", x)]

/-- A tool-result record whose raw `result` field is the given payload. -/
def resultItem (x : Value) : Item :=
  [("tool", .str "t"), ("result", x)]

/-- Payloads on which one level of envelope nesting cannot change the
verdict: everything except mappings that carry a wrapper key (`result`,
`data`) or an explicit `success: false` flag of their own. -/
def envelope_transparent : Value → Prop
  | .obj fields =>
      fields.lookup "result" = none ∧ fields.lookup "data" = none
      ∧ fields.lookup "success" ≠ some (Value.bool false)
  | _ => True

/-! Analyzer node, from `app/core/nodes/analyzer.py`. -/

/-- Outcome of the oracle (LLM) call made by `analyze_node`: either an
exception anywhere while obtaining or parsing the decision (network
failure, `json.loads` error, `.get` on a non-mapping), or the parsed JSON
reply. -/
inductive OracleReply where
  | failure (msg : String) : OracleReply
  | parsed (v : Value) : OracleReply

/-- The `query_analysis` record built by the exception handler of
`analyze_node` (analyzer.py lines 161-169). -/
def defaultQueryAnalysis (msg : String) : Value :=
  .obj [("intent", .str "unknown"), ("entities", .arr []), ("error", .str msg)]

/-- The decision extracted from the oracle reply after validation. -/
structure ValidatedDecision where
  route : String
  query_analysis : Value
  tool_plan : Value

/-- Embedding of the decision extraction and validation in `analyze_node`
(analyzer.py lines 121-142 and the exception handler at lines 161-169):
parse failures and non-mapping replies fall into the handler; a route
value other than the two allowed strings is replaced by `simple_chat`
with an empty plan. -/
def validate_decision : OracleReply → ValidatedDecision
  | .failure msg =>
      { route := "simple_chat", query_analysis := defaultQueryAnalysis msg,
        tool_plan := .arr [] }
  | .parsed (.obj fields) =>
      let routeVal := dictGet fields "route" (.str "simple_chat")
      let qa : Value :=
        .obj [("intent", dictGet fields "intent" (.str "")),
              ("entities", dictGet fields "entities" (.arr [])),
              ("reasoning", dictGet fields "reasoning" (.str ""))]
      let plan := dictGet fields "tool_plan" (.arr [])
      if routeVal = .str "simple_chat" then
        { route := "simple_chat", query_analysis := qa, tool_plan := plan }
      else if routeVal = .str "enhanced_analysis" then
        { route := "enhanced_analysis", query_analysis := qa, tool_plan := plan }
      else
        { route := "simple_chat", query_analysis := qa, tool_plan := .arr [] }
  | .parsed _ =>
      { route := "simple_chat",
        query_analysis := defaultQueryAnalysis "AttributeError",
        tool_plan := .arr [] }

/-- The route requested by the oracle after validation, before the depth
safety valve. -/
def validated_route (r : OracleReply) : String :=
  (validate_decision r).route

/-- The merge of the current round's results into the accumulated results
performed at the top of `analyze_node` (analyzer.py lines 36-38). -/
def merged_results (all_tool_results tool_results : List Item) : List Item :=
  if tool_results.isEmpty then all_tool_results
  else all_tool_results ++ tool_results

/-- The state update returned by `analyze_node`. -/
structure AnalyzerOut where
  route : String
  query_analysis : Value
  tool_plan : Value
  all_tool_results : List Item
  investigation_depth : Nat

/-- Embedding of `analyze_node` (analyzer.py lines 18-169) as a function of
the control-relevant inputs and the oracle outcome: merge the round's
results, validate the oracle decision, apply the depth safety valve at
depth ≥ 5, and increment the depth exactly when the final route is
`enhanced_analysis`. -/
def analyze_node (investigation_depth : Nat) (all_tool_results tool_results : List Item)
    (r : OracleReply) : AnalyzerOut :=
  let merged := merged_results all_tool_results tool_results
  let v := validate_decision r
  let routePlan : String × Value :=
    if 5 ≤ investigation_depth ∧ v.route = "enhanced_analysis" then
      ("simple_chat", Value.arr [])
    else (v.route, v.tool_plan)
  let newDepth :=
    if routePlan.1 = "enhanced_analysis" then investigation_depth + 1
    else investigation_depth
  { route := routePlan.1, query_analysis := v.query_analysis, tool_plan := routePlan.2,
    all_tool_results := merged, investigation_depth := newDepth }

/-- The error marker of a `query_analysis` record: its `"error"` field, if
any. -/
def qa_error_marker : Value → Option Value
  | .obj fields => fields.lookup "error"
  | _ => none

/-! Rewriter node, from `app/core/nodes/rewriter.py`. -/

/-- The full agent state (`app/core/state.py`), with message records
modelled by their content strings. -/
structure AgentState where
  messages : List String
  user_query : String
  route : String
  query_analysis : Option Value
  tool_plan : Option Value
  tool_results : Option (List Item)
  all_tool_results : Option (List Item)
  final_response : String
  retry_count : Nat
  data_quality : String
  investigation_depth : Nat

/-- The new query computed by `rewriter_node` (rewriter.py line 88):
`response.content.strip().strip('"').strip("'")`. -/
def rewritten_query (reply : String) : String :=
  stripWhile (fun c => c = '\'') (stripWhile (fun c => c = '"') (pyStripWs reply))

/-- The informational message appended to the conversation by
`rewriter_node` (rewriter.py line 95). -/
def retryMessage (q : String) : String :=
  "Retrying search with: '" ++ q ++ "'"

/-- Embedding of `rewriter_node` (rewriter.py lines 47-100) as the state
after the returned partial update is merged (messages concatenate, other
fields overwrite): at `retry_count ≥ 3` only `data_quality` is forced to
good; otherwise the query is replaced by the oracle reply stripped of
whitespace and quotes, the retry counter is incremented, and the plan,
round results and analysis are cleared. -/
def rewriter_node (s : AgentState) (reply : String) : AgentState :=
  if 3 ≤ s.retry_count then
    { s with data_quality := "good" }
  else
    let q := rewritten_query reply
    { s with
        user_query := q,
        retry_count := s.retry_count + 1,
        messages := s.messages ++ [retryMessage q],
        tool_plan := none,
        tool_results := none,
        query_analysis := none }

/-! Responder node, from `app/core/nodes/responder.py`. -/

/-- View of a tool-result record as a JSON value, used when serializing
results into the evidence-grounded prompt. -/
def itemValue (it : Item) : Value := .obj it

/-- The responder's choice of evidence and prompt. -/
structure ResponderChoice where
  used_results : List Item
  evidence_grounded : Bool
  serialized : String

/-- Embedding of the selection logic of `respond_node` (responder.py lines
60-78): normalize possibly-null result lists, prefer the accumulated
results over the round results, and ground the prompt in the serialized
evidence exactly when the chosen set is non-empty. -/
def respond_choice (route : String) (tool_results all_tool_results : Option (List Item)) :
    ResponderChoice :=
  let tr := tool_results.getD []
  let atr := all_tool_results.getD []
  let results_to_use := if !atr.isEmpty then atr else tr
  if !results_to_use.isEmpty then
    { used_results := results_to_use,
      evidence_grounded := true,
      serialized := pyJsonDumps (.arr (results_to_use.map itemValue)) }
  else
    { used_results := results_to_use, evidence_grounded := false, serialized := "" }

/-! Routing edges, from `app/core/edges.py`. -/

/-- Embedding of `route_decision` (edges.py lines 13-29). -/
def route_decision (route : String) : String :=
  if route = "enhanced_analysis" then "execute" else "respond"

/-- Embedding of `grader_decision` (edges.py lines 32-64), including its
explicit `investigation_depth ≥ 5` branch. -/
def grader_decision (data_quality : String) (retry_count investigation_depth : Nat) :
    String :=
  if data_quality = "bad" ∧ retry_count < 3 then "rewrite"
  else if 5 ≤ investigation_depth then "analyze"
  else "analyze"

/-- The two-case routing rule stated by the claim about `grader_decision`:
rewrite exactly when the data is bad and retries remain, analyze in every
other case. -/
def grader_decision_two_case (data_quality : String) (retry_count : Nat) : String :=
  if data_quality = "bad" ∧ retry_count < 3 then "rewrite" else "analyze"

/-! Orchestrator loop, from `app/core/graph.py`. -/

/-- The nodes of the compiled graph, plus the `done` end state. -/
inductive GNode where
  | analyze : GNode
  | execute : GNode
  | grader : GNode
  | rewriter : GNode
  | respond : GNode
  | done : GNode
deriving DecidableEq

/-- The control-relevant projection of the agent state threaded through the
graph: the pending node and the fields the routing edges read. -/
structure GState where
  node : GNode
  route : String
  data_quality : String
  retry_count : Nat
  investigation_depth : Nat
deriving DecidableEq

/-- The state at the start of a session: entry node `analyze`, counters at
zero (`app/server.py` seeds `retry_count=0`, `investigation_depth=0`). -/
def initGState : GState :=
  { node := .analyze, route := "simple_chat", data_quality := "good",
    retry_count := 0, investigation_depth := 0 }

/-- Modelled from the spec: one step of the orchestrator of
`app/core/graph.py`, projected onto the control-relevant fields.  The
analyzer, grader, rewriter and edge functions are the embeddings above of
the sources; the executor node (`app.core.nodes.executor`, imported by
`graph.py` but absent from the sources) is modelled from spec §4.1:
`fetch → grade` unconditionally, leaving both counters and the route
untouched, with the fetched results free.  Oracle replies and tool
results are universally quantified, so every behaviour of the external
collaborators is covered. -/
inductive Step : GState → GState → Prop where
  | analyze_step (s s' : GState) (all tool : List Item) (reply : OracleReply)
      (hn : s.node = .analyze)
      (hs' : s' = { s with
          node := if route_decision (analyze_node s.investigation_depth all tool reply).route
                      = "execute" then GNode.execute else GNode.respond,
          route := (analyze_node s.investigation_depth all tool reply).route,
          investigation_depth :=
            (analyze_node s.investigation_depth all tool reply).investigation_depth }) :
      Step s s'
  | execute_step (s s' : GState)
      (hn : s.node = .execute)
      (hs' : s' = { s with node := GNode.grader }) :
      Step s s'
  | grader_step (s s' : GState) (tool : List Item)
      (hn : s.node = .grader)
      (hs' : s' = { s with
          data_quality := grader_node_quality s.retry_count tool,
          node := if grader_decision (grader_node_quality s.retry_count tool)
                      s.retry_count s.investigation_depth = "rewrite"
                  then GNode.rewriter else GNode.analyze }) :
      Step s s'
  | rewriter_step (s s' : GState)
      (hn : s.node = .rewriter) (hlt : s.retry_count < 3)
      (hs' : s' = { s with node := GNode.analyze, retry_count := s.retry_count + 1 }) :
      Step s s'
  | rewriter_stop (s s' : GState)
      (hn : s.node = .rewriter) (hge : 3 ≤ s.retry_count)
      (hs' : s' = { s with node := GNode.analyze, data_quality := "good" }) :
      Step s s'
  | respond_step (s s' : GState)
      (hn : s.node = .respond)
      (hs' : s' = { s with node := GNode.done }) :
      Step s s'

/-- Weight of a node in the termination measure. -/
def nodeWeight : GNode → Nat
  | .analyze => 2
  | .execute => 4
  | .grader => 3
  | .rewriter => 0
  | .respond => 1
  | .done => 0

/-- Termination measure: decreases on every reachable step (the
subtractions truncate at the caps). -/
def gmeasure (s : GState) : Nat :=
  3 * (5 - s.investigation_depth) + 3 * (3 - s.retry_count) + nodeWeight s.node

/-- Auxiliary invariant: the rewriter node is only ever entered with
retries remaining. -/
def GInv (s : GState) : Prop :=
  s.node = GNode.rewriter → s.retry_count < 3

/-- A concrete finite run of the orchestrator: the oracle immediately
answers `simple_chat`, so the session responds and ends. -/
def sampleRun : Nat → GState
  | 0 => initGState
  | 1 => { initGState with node := .respond }
  | _ + 2 => { initGState with node := .done }

/-- A payload on which one level of envelope nesting flips the grader's
verdict: a mapping carrying its own `success: false` flag next to a data
field. -/
def cexPayload : Value :=
  .obj [("success", .bool false), ("detail", .str "late failure")]

/-- A well-formed oracle reply requesting another investigation round. -/
def enhancedReply : OracleReply :=
  .parsed (.obj [("route", .str "enhanced_analysis"),
                 ("tool_plan", .arr [.obj [("tool", .str "get_incident_by_id")]])])

/-- An oracle reply that parses but carries an invalid route value. -/
def bogusReply : OracleReply :=
  .parsed (.obj [("route", .str "bogus")])

/-- A concrete mid-session agent state, used to instantiate theorems. -/
def sampleState : AgentState :=
  { messages := ["hello"], user_query := "acme-cart-service-prod incidents",
    route := "enhanced_analysis", query_analysis := some (.obj []),
    tool_plan := some (.arr []), tool_results := some [],
    all_tool_results := some [[("tool", .str "search_incidents")]],
    final_response := "", retry_count := 0, data_quality := "bad",
    investigation_depth := 2 }

/-! Theorems.  First the spec's concrete grading scenarios (§8), as sanity
checks of the embedding. -/

example :
    check_single_result
      [("tool", .str "search_incidents"),
       ("result", .obj [("success", .bool true), ("result", .arr [])])] = false := by decide

example :
    check_single_result
      [("tool", .str "search_incidents"),
       ("result", .obj [("success", .bool true),
                        ("result", .arr [.obj [("id", .num 1529)]])])] = true := by decide

example :
    check_result_quality
      [[("tool", .str "a"), ("result", .obj [])],
       [("tool", .str "b"),
        ("result", .obj [("success", .bool true),
                         ("result", .obj [("count", .num 3)])])]] = true := by decide

example :
    check_single_result
      [("tool", .str "c"),
       ("result", .obj [("success", .bool true),
                        ("result", .str "Count: 0 results here")])] = false := by decide

/-- C1: Grader partial-success law.  For every list of round results the
pure grading predicate `_check_result_quality` returns good exactly when
some element is individually judged meaningful by `_check_single_result`,
and grading the empty list returns bad. -/
theorem grader_good_iff_some_meaningful (results : List Item) :
    (check_result_quality results = true
      ↔ ∃ r ∈ results, check_single_result r = true)
    ∧ check_result_quality [] = false := by
  refine ⟨?_, rfl⟩
  unfold check_result_quality
  cases results with
  | nil => simp
  | cons a as => simp [List.any_eq_true]

/-- C10: `grader_decision` is extensionally the two-case rule — rewrite
exactly when the data is bad and retries remain, analyze otherwise — and
its output does not depend on `investigation_depth`, whose explicit
branch is behaviorally dead. -/
theorem grader_decision_refines_two_case (q : String) (r d d' : Nat) :
    grader_decision q r d = grader_decision_two_case q r
    ∧ grader_decision q r d = grader_decision q r d' := by
  unfold grader_decision grader_decision_two_case
  constructor
  · by_cases h : q = "bad" ∧ r < 3
    · simp [h]
    · simp only [if_neg h]
      split <;> rfl
  · by_cases h : q = "bad" ∧ r < 3
    · simp [h]
    · simp only [if_neg h]
      split <;> split <;> rfl

/-- C7: the responder prefers the accumulated results over the round
results, grounds the prompt in the serialized evidence exactly when the
chosen set is non-empty, and its choice does not depend on the stored
route value. -/
theorem responder_evidence_selection (route route2 : String)
    (tr atr : Option (List Item)) :
    (respond_choice route tr atr).used_results
        = (if (atr.getD []).isEmpty then tr.getD [] else atr.getD [])
    ∧ ((respond_choice route tr atr).evidence_grounded = true
        ↔ (respond_choice route tr atr).used_results ≠ [])
    ∧ ((respond_choice route tr atr).evidence_grounded = true →
        (respond_choice route tr atr).serialized
          = pyJsonDumps (.arr ((respond_choice route tr atr).used_results.map itemValue)))
    ∧ respond_choice route tr atr = respond_choice route2 tr atr := by
  refine ⟨?_, ?_, ?_, rfl⟩
  all_goals
    unfold respond_choice
    cases hA : atr.getD [] with
    | nil =>
        cases hT : tr.getD [] with
        | nil => simp [hA, hT]
        | cons x xs => simp [hA, hT]
    | cons y ys => simp [hA]

/-- Witness for C7 at a concrete input: one accumulated result and stale
route `simple_chat` still select the evidence-grounded prompt. -/
theorem responder_evidence_selection_witness :
    (respond_choice "simple_chat" (some [])
        (some [[("tool", Value.str "x")]])).evidence_grounded = true := by
  have h := responder_evidence_selection "simple_chat" "enhanced_analysis"
    (some []) (some [[("tool", Value.str "x")]])
  rw [h.2.1]
  decide

/-- C8: at `retry_count < 3` the rewriter replaces the query with the
stripped oracle reply, increments the retry counter by one, clears the
plan, round results and analysis, appends exactly one informational
message noting the retry and new query, and leaves every other field —
in particular the accumulated results and the investigation depth —
unchanged. -/
theorem rewriter_effect_and_frame (s : AgentState) (reply : String)
    (h : s.retry_count < 3) :
    (rewriter_node s reply).user_query = rewritten_query reply
    ∧ (rewriter_node s reply).retry_count = s.retry_count + 1
    ∧ (rewriter_node s reply).tool_plan = none
    ∧ (rewriter_node s reply).tool_results = none
    ∧ (rewriter_node s reply).query_analysis = none
    ∧ (rewriter_node s reply).messages
        = s.messages ++ [retryMessage (rewritten_query reply)]
    ∧ (rewriter_node s reply).all_tool_results = s.all_tool_results
    ∧ (rewriter_node s reply).investigation_depth = s.investigation_depth
    ∧ (rewriter_node s reply).route = s.route
    ∧ (rewriter_node s reply).data_quality = s.data_quality
    ∧ (rewriter_node s reply).final_response = s.final_response := by
  have h3 : ¬ 3 ≤ s.retry_count := by omega
  simp [rewriter_node, h3]

/-- Witness for C8: the sample state at retry 0 with a quoted reply. -/
theorem rewriter_effect_and_frame_witness :
    (rewriter_node sampleState "\"acme cart\"").user_query = "acme cart"
    ∧ (rewriter_node sampleState "\"acme cart\"").retry_count = 1
    ∧ (rewriter_node sampleState "\"acme cart\"").all_tool_results
        = sampleState.all_tool_results := by
  have h := rewriter_effect_and_frame sampleState "\"acme cart\"" (by decide)
  exact ⟨h.1.trans (by decide), h.2.1.trans (by decide), h.2.2.2.2.2.2.1⟩

/-- C9 counterexample: with retries remaining and an empty oracle reply,
the rewriter installs the empty string as the new query — the claim that
the new query is never empty fails on this input. -/
theorem rewriter_empty_query_cex :
    (rewriter_node sampleState "").user_query = ""
    ∧ sampleState.retry_count < 3 := by
  exact ⟨by decide, by decide⟩

/-- Characters that no stage of the stripping removes survive into the
result of `dropWhile`. -/
theorem mem_dropWhile_of_not (p : Char → Bool) (l : List Char) (c : Char)
    (hc : c ∈ l) (hpc : p c = false) : c ∈ l.dropWhile p := by
  induction l with
  | nil => cases hc
  | cons a as ih =>
      rw [List.dropWhile_cons]
      split
      · next hpa =>
          rcases List.mem_cons.mp hc with rfl | hmem
          · rw [hpc] at hpa; cases hpa
          · exact ih hmem
      · exact hc

/-- Characters that the strip predicate rejects survive `stripWhile`. -/
theorem mem_stripWhile_of_not (p : Char → Bool) (s : String) (c : Char)
    (hc : c ∈ s.data) (hpc : p c = false) : c ∈ (stripWhile p s).data := by
  unfold stripWhile
  rw [List.mem_reverse]
  apply mem_dropWhile_of_not _ _ _ _ hpc
  rw [List.mem_reverse]
  exact mem_dropWhile_of_not _ _ _ hc hpc

/-- C9 (amended): the new query is the oracle reply stripped of surrounding
whitespace and quotation marks; it is non-empty whenever the reply
contains at least one character that is neither whitespace nor a
quotation mark, but the code has no guard for replies consisting only of
such characters (e.g. the empty reply). -/
theorem rewriter_nonempty_query (s : AgentState) (reply : String)
    (hretry : s.retry_count < 3)
    (hc : ∃ c ∈ reply.data, isPyWs c = false ∧ c ≠ '"' ∧ c ≠ '\'') :
    (rewriter_node s reply).user_query ≠ "" := by
  obtain ⟨c, hmem, hws, hdq, hsq⟩ := hc
  have hq : (rewriter_node s reply).user_query = rewritten_query reply := by
    have h3 : ¬ 3 ≤ s.retry_count := by omega
    simp [rewriter_node, h3]
  rw [hq]
  unfold rewritten_query
  intro hempty
  have hc1 : c ∈ (pyStripWs reply).data :=
    mem_stripWhile_of_not _ _ _ hmem hws
  have hc2 : c ∈ (stripWhile (fun c => c = '"') (pyStripWs reply)).data :=
    mem_stripWhile_of_not _ _ _ hc1 (decide_eq_false hdq)
  have hc3 : c ∈ (stripWhile (fun c => c = '\'')
      (stripWhile (fun c => c = '"') (pyStripWs reply))).data :=
    mem_stripWhile_of_not _ _ _ hc2 (decide_eq_false hsq)
  rw [hempty] at hc3
  exact List.not_mem_nil c hc3

/-- Witness for the amended C9: a quoted reply containing letters yields a
non-empty query. -/
theorem rewriter_nonempty_query_witness :
    (rewriter_node sampleState "\"acme cart\"").user_query ≠ "" := by
  apply rewriter_nonempty_query sampleState "\"acme cart\"" (by decide)
  exact ⟨'a', by decide, by decide, by decide, by decide⟩

/-- Characterization of `analyze_node`: the returned fields in terms of the
validated decision, the depth safety valve and the depth increment. -/
theorem analyze_node_char (d : Nat) (a t : List Item) (r : OracleReply) :
    (analyze_node d a t r).route
        = (if 5 ≤ d ∧ (validate_decision r).route = "enhanced_analysis"
           then "simple_chat" else (validate_decision r).route)
    ∧ (analyze_node d a t r).tool_plan
        = (if 5 ≤ d ∧ (validate_decision r).route = "enhanced_analysis"
           then Value.arr [] else (validate_decision r).tool_plan)
    ∧ (analyze_node d a t r).investigation_depth
        = (if (analyze_node d a t r).route = "enhanced_analysis" then d + 1 else d)
    ∧ (analyze_node d a t r).all_tool_results = merged_results a t
    ∧ (analyze_node d a t r).query_analysis = (validate_decision r).query_analysis := by
  by_cases hval : 5 ≤ d ∧ (validate_decision r).route = "enhanced_analysis"
  · simp [analyze_node, hval]
  · simp [analyze_node, hval]

/-- C4: the depth safety valve and the depth increment postcondition of
`analyze_node`.  At depth ≥ 5 a validated `enhanced_analysis` request is
overridden to `simple_chat` with an empty plan; the returned depth is the
input plus one exactly when the final route is `enhanced_analysis`, and
the input unchanged when it is `simple_chat`. -/
theorem analyzer_depth_valve (d : Nat) (a t : List Item) (r : OracleReply) :
    (5 ≤ d → validated_route r = "enhanced_analysis" →
      (analyze_node d a t r).route = "simple_chat"
      ∧ (analyze_node d a t r).tool_plan = Value.arr [])
    ∧ ((analyze_node d a t r).route = "enhanced_analysis" →
        (analyze_node d a t r).investigation_depth = d + 1)
    ∧ ((analyze_node d a t r).route = "simple_chat" →
        (analyze_node d a t r).investigation_depth = d) := by
  obtain ⟨hr, hp, hd, -, -⟩ := analyze_node_char d a t r
  refine ⟨fun h5 hv => ?_, fun he => ?_, fun hs => ?_⟩
  · unfold validated_route at hv
    rw [hr, hp, if_pos ⟨h5, hv⟩, if_pos ⟨h5, hv⟩]
    exact ⟨rfl, rfl⟩
  · rw [hd, if_pos he]
  · rw [hd, if_neg (by rw [hs]; decide)]

/-- Witness for C4: at depth 5 a well-formed `enhanced_analysis` request is
overridden and the depth stays 5. -/
theorem analyzer_depth_valve_witness :
    (analyze_node 5 [] [] enhancedReply).route = "simple_chat"
    ∧ (analyze_node 5 [] [] enhancedReply).tool_plan = Value.arr []
    ∧ (analyze_node 5 [] [] enhancedReply).investigation_depth = 5 := by
  have h := analyzer_depth_valve 5 [] [] enhancedReply
  have h1 := h.1 (by decide) (by decide)
  exact ⟨h1.1, h1.2, h.2.2 h1.1⟩

/-- C6 counterexample: a reply that parses to a mapping with the invalid
route value `"bogus"` yields the safe default route and empty plan, but a
`query_analysis` without any error marker — refuting the claim that every
such degradation carries one. -/
theorem analyzer_invalid_route_cex :
    (analyze_node 0 [] [] bogusReply).route = "simple_chat"
    ∧ (analyze_node 0 [] [] bogusReply).tool_plan = Value.arr []
    ∧ qa_error_marker (analyze_node 0 [] [] bogusReply).query_analysis = none := by
  decide

/-- C6 (amended): a parse failure or exception while obtaining the decision
degrades to `simple_chat` with an empty plan, a `query_analysis` carrying
the error marker, the merged accumulated results untouched and the depth
unchanged; an invalid route value degrades the same way except that the
`query_analysis` carries the parsed fields and no error marker. -/
theorem analyzer_failure_default (d : Nat) (a t : List Item) (msg : String)
    (fields : List (String × Value))
    (hroute : dictGet fields "route" (.str "simple_chat") ≠ .str "simple_chat"
      ∧ dictGet fields "route" (.str "simple_chat") ≠ .str "enhanced_analysis") :
    ((analyze_node d a t (.failure msg)).route = "simple_chat"
      ∧ (analyze_node d a t (.failure msg)).tool_plan = Value.arr []
      ∧ qa_error_marker (analyze_node d a t (.failure msg)).query_analysis
          = some (.str msg)
      ∧ (analyze_node d a t (.failure msg)).all_tool_results = merged_results a t
      ∧ (analyze_node d a t (.failure msg)).investigation_depth = d)
    ∧ ((analyze_node d a t (.parsed (.obj fields))).route = "simple_chat"
      ∧ (analyze_node d a t (.parsed (.obj fields))).tool_plan = Value.arr []
      ∧ qa_error_marker (analyze_node d a t (.parsed (.obj fields))).query_analysis
          = none
      ∧ (analyze_node d a t (.parsed (.obj fields))).all_tool_results
          = merged_results a t
      ∧ (analyze_node d a t (.parsed (.obj fields))).investigation_depth = d) := by
  constructor
  · simp [analyze_node, validate_decision, qa_error_marker, defaultQueryAnalysis,
      List.lookup]
  · simp only [analyze_node, validate_decision]
    rw [if_neg hroute.1, if_neg hroute.2]
    simp [qa_error_marker, List.lookup]

/-- Witness for the amended C6: a concrete failure and a concrete invalid
route reply. -/
theorem analyzer_failure_default_witness :
    (analyze_node 1 [] [] (.failure "boom")).route = "simple_chat"
    ∧ qa_error_marker (analyze_node 1 [] [] (.failure "boom")).query_analysis
        = some (.str "boom")
    ∧ (analyze_node 1 [] [] (.parsed (.obj [("route", Value.str "bogus")]))).route
        = "simple_chat" := by
  have h := analyzer_failure_default 1 [] [] "boom" [("route", Value.str "bogus")]
    ⟨by decide, by decide⟩
  exact ⟨h.1.1, h.1.2.2.1, h.2.1⟩

/-- C5 counterexample: judging the payload `{"success": false, "detail":
"late failure"}` directly rejects it at the explicit-failure check, but
judging its one-level envelope `{"success": true, "result": X}` accepts
it — the claimed invariance fails at this payload. -/
theorem grader_envelope_cex :
    check_single_result (resultItem (envelope cexPayload)) = true
    ∧ check_single_result (resultItem cexPayload) = false := by
  decide

/-- On items whose raw result carries no `success: false` flag of its own,
judging the item reduces to judging the extracted data. -/
theorem check_single_result_resultItem (y : Value)
    (hns : ∀ fields, y = .obj fields →
      fields.lookup "success" ≠ some (Value.bool false)) :
    check_single_result (resultItem y) = judge_actual (extract_actual_data y) := by
  cases y with
  | obj fields =>
      have h := hns fields rfl
      show (if decide (fields.lookup "success" = some (Value.bool false)) then false
            else judge_actual (extract_actual_data (Value.obj fields)))
          = judge_actual (extract_actual_data (Value.obj fields))
      rw [decide_eq_false h]
      rfl
  | null => rfl
  | bool b => rfl
  | num n => rfl
  | str s => rfl
  | arr l => rfl

/-- C5 (amended): the grader's per-element judgment is invariant to one
level of envelope nesting for every payload that is not a mapping, and
for every mapping that carries no wrapper key (`result`, `data`) and no
`success: false` flag of its own. -/
theorem grader_envelope_invariance (x : Value) (hx : envelope_transparent x) :
    check_single_result (resultItem (envelope x))
      = check_single_result (resultItem x) := by
  cases x with
  | obj fields =>
      obtain ⟨hres, hdat, hsuc⟩ := hx
      have hL : check_single_result (resultItem (envelope (Value.obj fields)))
          = judge_actual (Value.obj fields) := rfl
      have hR := check_single_result_resultItem (Value.obj fields)
        (fun fs hfs => by injection hfs with h; exact h ▸ hsuc)
      have hEX : extract_actual_data (Value.obj fields) = Value.obj fields := by
        simp only [extract_actual_data]
        rw [hres, hdat]
      rw [hL, hR, hEX]
  | null => rfl
  | bool b => rfl
  | num n => rfl
  | str s => rfl
  | arr l => rfl

/-- Witness for the amended C5: a plain string payload. -/
theorem grader_envelope_invariance_witness :
    check_single_result (resultItem (envelope (Value.str "hello")))
      = check_single_result (resultItem (Value.str "hello")) :=
  grader_envelope_invariance (Value.str "hello") True.intro

/-! Helper lemmas about the orchestrator loop, shared by the invariant and
termination theorems. -/

/-- The validated route is always one of the two allowed strings. -/
theorem validate_route_cases (r : OracleReply) :
    (validate_decision r).route = "simple_chat"
    ∨ (validate_decision r).route = "enhanced_analysis" := by
  cases r with
  | failure msg => left; rfl
  | parsed v =>
      cases v with
      | obj fields =>
          simp only [validate_decision]
          split
          · left; rfl
          · split
            · right; rfl
            · left; rfl
      | null => left; rfl
      | bool b => left; rfl
      | num n => left; rfl
      | str s => left; rfl
      | arr l => left; rfl

/-- The analyzer's final route is one of the two allowed strings. -/
theorem analyze_route_cases (d : Nat) (a t : List Item) (r : OracleReply) :
    (analyze_node d a t r).route = "simple_chat"
    ∨ (analyze_node d a t r).route = "enhanced_analysis" := by
  obtain ⟨hr, -, -, -, -⟩ := analyze_node_char d a t r
  by_cases hval : 5 ≤ d ∧ (validate_decision r).route = "enhanced_analysis"
  · left; rw [hr, if_pos hval]
  · rw [hr, if_neg hval]
    exact validate_route_cases r

/-- When the analyzer's final route is `enhanced_analysis`, the depth was
below the cap and is incremented. -/
theorem analyze_enhanced_depth (d : Nat) (a t : List Item) (r : OracleReply)
    (he : (analyze_node d a t r).route = "enhanced_analysis") :
    (analyze_node d a t r).investigation_depth = d + 1 ∧ d < 5 := by
  obtain ⟨hr, -, hd, -, -⟩ := analyze_node_char d a t r
  refine ⟨by rw [hd, if_pos he], ?_⟩
  rw [hr] at he
  by_cases hval : 5 ≤ d ∧ (validate_decision r).route = "enhanced_analysis"
  · rw [if_pos hval] at he
    exact absurd he (by decide)
  · rw [if_neg hval] at he
    by_contra h5
    exact hval ⟨by omega, he⟩

/-- When the analyzer's final route is `simple_chat`, the depth is
unchanged. -/
theorem analyze_simple_depth (d : Nat) (a t : List Item) (r : OracleReply)
    (hs : (analyze_node d a t r).route = "simple_chat") :
    (analyze_node d a t r).investigation_depth = d := by
  obtain ⟨-, -, hd, -, -⟩ := analyze_node_char d a t r
  rw [hd, if_neg (by rw [hs]; decide)]

/-- Routing lemma: `grader_decision` answers rewrite exactly when the data
is bad and retries remain. -/
theorem grader_decision_rewrite_iff (q : String) (r d : Nat) :
    grader_decision q r d = "rewrite" ↔ (q = "bad" ∧ r < 3) := by
  unfold grader_decision
  by_cases h : q = "bad" ∧ r < 3
  · simp [h]
  · rw [if_neg h]
    constructor
    · intro hh
      split at hh <;> exact absurd hh (by decide)
    · intro hh
      exact absurd hh h

/-- No step of the orchestrator decreases either counter. -/
theorem step_counters_mono (s s' : GState) (h : Step s s') :
    s.investigation_depth ≤ s'.investigation_depth
    ∧ s.retry_count ≤ s'.retry_count := by
  cases h with
  | analyze_step all tool reply hn hs' =>
      subst hs'
      dsimp only
      refine ⟨?_, le_refl _⟩
      obtain ⟨-, -, hd, -, -⟩ := analyze_node_char s.investigation_depth all tool reply
      rw [hd]
      split <;> omega
  | execute_step hn hs' => subst hs'; exact ⟨le_refl _, le_refl _⟩
  | grader_step tool hn hs' => subst hs'; exact ⟨le_refl _, le_refl _⟩
  | rewriter_step hn hlt hs' => subst hs'; exact ⟨le_refl _, by dsimp only; omega⟩
  | rewriter_stop hn hge hs' => subst hs'; exact ⟨le_refl _, le_refl _⟩
  | respond_step hn hs' => subst hs'; exact ⟨le_refl _, le_refl _⟩

/-- The counter caps are preserved by every step. -/
theorem step_caps (s s' : GState) (h : Step s s')
    (hcap : s.investigation_depth ≤ 5 ∧ s.retry_count ≤ 3) :
    s'.investigation_depth ≤ 5 ∧ s'.retry_count ≤ 3 := by
  cases h with
  | analyze_step all tool reply hn hs' =>
      subst hs'
      dsimp only
      refine ⟨?_, hcap.2⟩
      rcases analyze_route_cases s.investigation_depth all tool reply with hrt | hrt
      · rw [analyze_simple_depth _ _ _ _ hrt]
        exact hcap.1
      · obtain ⟨hd, hlt⟩ := analyze_enhanced_depth _ _ _ _ hrt
        omega
  | execute_step hn hs' => subst hs'; exact hcap
  | grader_step tool hn hs' => subst hs'; exact hcap
  | rewriter_step hn hlt hs' =>
      subst hs'
      exact ⟨hcap.1, by dsimp only; omega⟩
  | rewriter_stop hn hge hs' => subst hs'; exact hcap
  | respond_step hn hs' => subst hs'; exact hcap

/-- The rewriter node is only entered with retries remaining. -/
theorem step_ginv (s s' : GState) (h : Step s s') : GInv s' := by
  cases h with
  | analyze_step all tool reply hn hs' =>
      subst hs'
      intro hrew
      dsimp only at hrew
      split at hrew <;> cases hrew
  | execute_step hn hs' =>
      subst hs'
      intro hrew
      cases hrew
  | grader_step tool hn hs' =>
      subst hs'
      intro hrew
      dsimp only at hrew
      split at hrew
      · next hgd =>
          dsimp only
          exact ((grader_decision_rewrite_iff _ _ _).mp hgd).2
      · cases hrew
  | rewriter_step hn hlt hs' =>
      subst hs'
      intro hrew
      cases hrew
  | rewriter_stop hn hge hs' =>
      subst hs'
      intro hrew
      cases hrew
  | respond_step hn hs' =>
      subst hs'
      intro hrew
      cases hrew

/-- On every step from a state satisfying the auxiliary invariant, the
termination measure strictly decreases. -/
theorem step_gmeasure (s s' : GState) (h : Step s s') (hi : GInv s) :
    gmeasure s' < gmeasure s := by
  cases h with
  | analyze_step all tool reply hn hs' =>
      subst hs'
      unfold gmeasure
      dsimp only
      rw [hn]
      rcases analyze_route_cases s.investigation_depth all tool reply with hrt | hrt
      · rw [analyze_simple_depth _ _ _ _ hrt, hrt]
        simp only [route_decision, nodeWeight]
        rw [if_neg (by decide)]
        dsimp only [nodeWeight]
        omega
      · obtain ⟨hd, hlt⟩ := analyze_enhanced_depth _ _ _ _ hrt
        rw [hd, hrt]
        simp only [route_decision]
        rw [if_pos (by decide)]
        dsimp only [nodeWeight]
        omega
  | execute_step hn hs' =>
      subst hs'
      unfold gmeasure
      dsimp only
      rw [hn]
      dsimp only [nodeWeight]
      omega
  | grader_step tool hn hs' =>
      subst hs'
      unfold gmeasure
      dsimp only
      rw [hn]
      split <;> dsimp only [nodeWeight] <;> omega
  | rewriter_step hn hlt hs' =>
      subst hs'
      unfold gmeasure
      dsimp only
      rw [hn]
      dsimp only [nodeWeight]
      omega
  | rewriter_stop hn hge hs' =>
      subst hs'
      have := hi hn
      omega
  | respond_step hn hs' =>
      subst hs'
      unfold gmeasure
      dsimp only
      rw [hn]
      dsimp only [nodeWeight]
      omega

/-- While the run has not ended, the measure is positive. -/
theorem gmeasure_pos (s : GState) (hinv : GInv s) (hne : s.node ≠ GNode.done) :
    1 ≤ gmeasure s := by
  unfold gmeasure
  cases hn : s.node with
  | analyze => dsimp only [nodeWeight]; omega
  | execute => dsimp only [nodeWeight]; omega
  | grader => dsimp only [nodeWeight]; omega
  | rewriter =>
      have := hinv hn
      dsimp only [nodeWeight]
      omega
  | respond => dsimp only [nodeWeight]; omega
  | done => exact absurd hn hne

/-- The only step into `done` is from `respond`. -/
theorem step_into_done (s s' : GState) (h : Step s s')
    (hdone : s'.node = GNode.done) : s.node = GNode.respond := by
  cases h with
  | analyze_step all tool reply hn hs' =>
      subst hs'
      dsimp only at hdone
      split at hdone <;> cases hdone
  | execute_step hn hs' => subst hs'; cases hdone
  | grader_step tool hn hs' =>
      subst hs'
      dsimp only at hdone
      split at hdone <;> cases hdone
  | rewriter_step hn hlt hs' => subst hs'; cases hdone
  | rewriter_stop hn hge hs' => subst hs'; cases hdone
  | respond_step hn hs' => exact hn

/-- Along any run that has not yet ended, the invariant holds and the
measure bounds the number of steps taken. -/
theorem run_invariant (f : Nat → GState) (h0 : f 0 = initGState)
    (hstep : ∀ n, (f n).node ≠ GNode.done → Step (f n) (f (n + 1))) :
    ∀ n, (∀ k, k < n → (f k).node ≠ GNode.done) →
      GInv (f n) ∧ gmeasure (f n) + n ≤ 26 := by
  intro n
  induction n with
  | zero =>
      intro _
      rw [h0]
      constructor
      · intro h
        cases h
      · decide
  | succ n ih =>
      intro hnd
      obtain ⟨hinv, hmeas⟩ := ih fun k hk => hnd k (by omega)
      have hfn : (f n).node ≠ GNode.done := hnd n (by omega)
      have hs := hstep n hfn
      refine ⟨step_ginv _ _ hs, ?_⟩
      have hlt := step_gmeasure _ _ hs hinv
      omega

/-- C2: for every behaviour of the oracle and tool collaborators, no
transition of the orchestrator decreases `investigation_depth` or
`retry_count`, and every run from the initial state reaches the terminal
`respond` node within a bounded number of node executions (at most 26
steps). -/
theorem loop_terminates_and_counters_monotone :
    (∀ s s' : GState, Step s s' →
        s.investigation_depth ≤ s'.investigation_depth
        ∧ s.retry_count ≤ s'.retry_count)
    ∧ (∀ f : Nat → GState, f 0 = initGState →
        (∀ n, (f n).node ≠ GNode.done → Step (f n) (f (n + 1))) →
        ∃ n, n ≤ 26 ∧ (f n).node = GNode.respond) := by
  refine ⟨step_counters_mono, ?_⟩
  intro f h0 hstep
  have hdone : ∃ m, m ≤ 26 ∧ (f m).node = GNode.done := by
    by_contra hc
    push_neg at hc
    have hnd : ∀ k, k < 26 → (f k).node ≠ GNode.done := fun k hk => hc k (by omega)
    obtain ⟨hinv, hmeas⟩ := run_invariant f h0 hstep 26 hnd
    have hne : (f 26).node ≠ GNode.done := hc 26 (by omega)
    have hpos := gmeasure_pos _ hinv hne
    omega
  have hex : ∃ m, (f m).node = GNode.done := ⟨hdone.choose, hdone.choose_spec.2⟩
  have hk : (f (Nat.find hex)).node = GNode.done := Nat.find_spec hex
  have hk26 : Nat.find hex ≤ 26 :=
    le_trans (Nat.find_min' hex hdone.choose_spec.2) hdone.choose_spec.1
  have hk0 : Nat.find hex ≠ 0 := by
    intro h
    rw [h, h0] at hk
    cases hk
  obtain ⟨k', hkk⟩ : ∃ k', Nat.find hex = k' + 1 :=
    ⟨Nat.find hex - 1, by omega⟩
  have hprev : (f k').node ≠ GNode.done := Nat.find_min hex (by omega)
  have hks : Step (f k') (f (Nat.find hex)) := by
    rw [hkk]
    exact hstep k' hprev
  exact ⟨k', by omega, step_into_done _ _ hks hk⟩

/-- Witness for C2: the concrete sample run responds within the bound. -/
theorem loop_terminates_witness :
    ∃ n, n ≤ 26 ∧ (sampleRun n).node = GNode.respond := by
  apply loop_terminates_and_counters_monotone.2 sampleRun rfl
  intro n hn
  match n with
  | 0 =>
      exact Step.analyze_step _ _ [] [] (.failure "stub") rfl (by decide)
  | 1 =>
      exact Step.respond_step _ _ rfl (by decide)
  | (m + 2) =>
      exact absurd rfl hn

/-- C3: in every state reachable from the initial state,
`investigation_depth ≤ 5` and `retry_count ≤ 3`. -/
theorem counters_capped (s : GState)
    (h : Relation.ReflTransGen Step initGState s) :
    s.investigation_depth ≤ 5 ∧ s.retry_count ≤ 3 := by
  induction h with
  | refl => exact ⟨by decide, by decide⟩
  | tail hsteps hstep ih => exact step_caps _ _ hstep ih

/-- Witness for C3: the initial state itself. -/
theorem counters_capped_witness :
    initGState.investigation_depth ≤ 5 ∧ initGState.retry_count ≤ 3 :=
  counters_capped initGState Relation.ReflTransGen.refl

end MitChatbot
